import Mathlib

/-!
Verification of the RFP proposal-generation pipeline
(`rfp_proposal_generator`): a shallow embedding of the chunking logic,
the two-tier Mermaid validation gate, the ordered generation stages,
the OEM trigger/augmentation step, the prompt-configuration loader and
the run-level error wrapping, together with proofs about their behavior.

Python strings are modelled as `List Char`; Python `str.strip`,
`str.startswith`, `str.endswith`, `in` (substring), `str.lower` and
slicing are given explicit executable counterparts below.
-/

/-- Python strings are modelled as lists of characters. -/
abbrev Str := List Char

/-- Converts a Lean string literal to the character-list model. -/
def pyS (s : String) : Str := s.data

/-- A single-quote character (U+0027), used when assembling the
source code message strings that quote names. -/
def sqm : Str := [Char.ofNat 39]

/-- Python `str.lower` (ASCII case folding, as used by the code on
ASCII keyword data). -/
def lowerStr (s : Str) : Str := s.map Char.toLower

/-- Boolean prefix test on character lists (Python `str.startswith`). -/
def isPrefixB : Str → Str → Bool
  | [], _ => true
  | _ :: _, [] => false
  | a :: as, b :: bs => a == b && isPrefixB as bs

/-- Boolean suffix test on character lists (Python `str.endswith`). -/
def isSuffixB (suffixL l : Str) : Bool := isPrefixB suffixL.reverse l.reverse

/-- Boolean substring test (Python `needle in haystack`). -/
def isInfixB (needle : Str) : Str → Bool
  | [] => needle.isEmpty
  | h :: rest => isPrefixB needle (h :: rest) || isInfixB needle rest

/-- Left part of Python `str.strip`: drop leading whitespace. -/
def stripLeft (l : Str) : Str := l.dropWhile Char.isWhitespace

/-- Right part of Python `str.strip`: drop trailing whitespace. -/
def stripRight (l : Str) : Str := (l.reverse.dropWhile Char.isWhitespace).reverse

/-- Python `str.strip`: drop leading and trailing whitespace. -/
def pyStrip (l : Str) : Str := stripRight (stripLeft l)

/-- Embeds `ProposalGenerator._is_oem_technology` (generator.py): true when
some configured OEM keyword, lowercased, is a substring of the
lowercased technology name. -/
def is_oem_technology (oemKeywords : List Str) (technologyName : Str) : Bool :=
  oemKeywords.any (fun keyword => isInfixB (lowerStr keyword) (lowerStr technologyName))

theorem isPrefixB_iff (p l : Str) : isPrefixB p l = true ↔ ∃ post, l = p ++ post := by
  induction p generalizing l with
  | nil => simp [isPrefixB]
  | cons a as ih =>
    cases l with
    | nil => simp [isPrefixB]
    | cons b bs =>
      simp only [isPrefixB, Bool.and_eq_true, beq_iff_eq, ih, List.cons_append, List.cons.injEq]
      constructor
      · rintro ⟨rfl, post, rfl⟩; exact ⟨post, rfl, rfl⟩
      · rintro ⟨post, rfl, rfl⟩; exact ⟨rfl, post, rfl⟩

theorem isInfixB_iff (n h : Str) : isInfixB n h = true ↔ ∃ pre post, h = pre ++ n ++ post := by
  induction h with
  | nil =>
    simp only [isInfixB, List.isEmpty_iff]
    constructor
    · rintro rfl; exact ⟨[], [], rfl⟩
    · rintro ⟨pre, post, hp⟩
      rcases List.append_eq_nil.mp (List.append_eq_nil.mp hp.symm).1 with ⟨-, h2⟩
      exact h2
  | cons c rest ih =>
    simp only [isInfixB, Bool.or_eq_true, isPrefixB_iff, ih]
    constructor
    · rintro (⟨post, hp⟩ | ⟨pre, post, hp⟩)
      · exact ⟨[], post, by simpa using hp⟩
      · exact ⟨c :: pre, post, by simp [hp]⟩
    · rintro ⟨pre, post, hp⟩
      cases pre with
      | nil => exact Or.inl ⟨post, by simpa using hp⟩
      | cons x xs =>
        simp only [List.cons_append, List.cons.injEq] at hp
        exact Or.inr ⟨xs, post, by simp [hp.2]⟩

/-! ## Diagram validation gate (technical_writer_agent.py) -/

/-- The opening fence marker. -/
def fenceOpenL : Str := pyS "```mermaid"

/-- The closing fence marker. -/
def fenceCloseL : Str := pyS "```"

/-- Splits a character list on newline characters (the line structure
the MULTILINE regex of `_validate_mermaid_basic` works over). -/
def splitOnNl : Str → List Str
  | [] => [[]]
  | c :: rest =>
    if c = '\n' then [] :: splitOnNl rest
    else
      match splitOnNl rest with
      | [] => [[c]]
      | h :: t => (c :: h) :: t

/-- The diagram-type keywords of the first regex in
`_validate_mermaid_basic` (alternatives after `^\s*`). -/
def diagramKeywords : List Str :=
  [pyS "graph", pyS "sequenceDiagram", pyS "classDiagram", pyS "stateDiagram",
   pyS "erDiagram", pyS "journey", pyS "gantt", pyS "pie", pyS "gitGraph"]

/-- The regex `^\s*(graph|sequenceDiagram|...)` with `re.MULTILINE`:
some line, after its leading whitespace (a `\s*` run crossing a newline
lands at the start of a later line, which this scan also covers),
starts with one of the keywords. -/
def hasKeywordLine (clean : Str) : Bool :=
  (splitOnNl clean).any (fun line => diagramKeywords.any (fun kw => isPrefixB kw (stripLeft line)))

/-- Tries to consume the literal `graph`, then at least one whitespace
character, then one of `TD`/`LR`/`BT`/`RL`, at the head of the list. -/
def graphDirAfterWs : Str → Bool
  | [] => false
  | c :: rest =>
    if c.isWhitespace then graphDirAfterWs rest
    else
      isPrefixB (pyS "TD") (c :: rest) || isPrefixB (pyS "LR") (c :: rest) ||
      isPrefixB (pyS "BT") (c :: rest) || isPrefixB (pyS "RL") (c :: rest)

/-- Matches `graph\s+(TD|LR|BT|RL)` at the head of the list. -/
def graphDirHere (l : Str) : Bool :=
  isPrefixB (pyS "graph") l &&
    (match l.drop 5 with
     | [] => false
     | c :: rest => c.isWhitespace && graphDirAfterWs rest)

/-- Models `re.search` of `graph\s+(TD|LR|BT|RL)`: the pattern matches at some
position of the list. -/
def containsGraphDir : Str → Bool
  | [] => false
  | c :: rest => graphDirHere (c :: rest) || containsGraphDir rest

/-- The second regex of `_validate_mermaid_basic` (no MULTILINE,
searched anywhere): `graph\s+(TD|LR|BT|RL)` or one of the literal
diagram-type words. -/
def hasGraphDefinition (clean : Str) : Bool :=
  containsGraphDir clean ||
    [pyS "sequenceDiagram", pyS "classDiagram", pyS "stateDiagram", pyS "erDiagram",
     pyS "journey", pyS "gantt", pyS "pie", pyS "gitGraph"].any
      (fun kw => isInfixB kw clean)

/-- The closing delimiter the bracket scan of `_validate_mermaid_basic`
expects for an opener (`brackets[...]` in the source). -/
def closingOf (c : Char) : Char :=
  if c = '(' then ')' else if c = '[' then ']' else '}'

/-- Whether the bracket scan of `_validate_mermaid_basic` logs at least
one "Potentially mismatched bracket" warning: a closing delimiter is
met with an empty stack or a non-matching opener on top.  The source
loop only logs (`pass`) and keeps scanning with the popped stack; it
never affects the function result, and an unclosed opener left on the
stack at the end is not reported at all. -/
def bracketMismatchLogged : Str → List Char → Bool
  | [], _ => false
  | c :: rest, stack =>
    if c = '(' || c = '[' || c = '{' then bracketMismatchLogged rest (c :: stack)
    else if c = ')' || c = ']' || c = '}' then
      match stack with
      | [] => true
      | top :: stack2 => if closingOf top ≠ c then true else bracketMismatchLogged rest stack2
    else bracketMismatchLogged rest stack

/-- Embeds `TechnicalWriterAgent._validate_mermaid_basic`: Tier 1 of the
gate: requires a non-empty script that either carries both fence
markers (after stripping) or has a line starting with a diagram
keyword, and that contains a diagram definition; the bracket scan
(see `bracketMismatchLogged`) is log-only in the source, so balance of
delimiters does not enter the result. -/
def validate_mermaid_basic (script : Str) : Bool :=
  if script.isEmpty then false
  else
    let clean := pyStrip script
    if !(isPrefixB fenceOpenL clean && isSuffixB fenceCloseL clean) && !hasKeywordLine clean then
      false
    else if !hasGraphDefinition clean then false
    else true

/-- Outcome of an attempted `mmdc` subprocess invocation, the external
collaborator of `_validate_mermaid_with_cli` (exit code with captured
stderr/stdout, executable missing at invocation time, 30s timeout, or
another exception). -/
inductive MmdcRun where
  | exitCode (rc : Nat) (errOutput : Str)
  | notFound
  | timedOut
  | raisedError (emsg : Str)
deriving DecidableEq

/-- Message of `_validate_mermaid_with_cli` when `mmdc` was never found
on PATH. -/
def cliUnavailableMsg : Str := pyS "mmdc (Mermaid CLI) not found. Skipping CLI validation."

/-- Message when the script is empty once fences are removed. -/
def cliEmptyMsg : Str := pyS "Mermaid script is empty after removing fences."

/-- Message on a zero exit code. -/
def cliSuccessMsg : Str := pyS "Mermaid script validated successfully with mmdc."

/-- Message when the executable vanishes at invocation time. -/
def cliNotFoundExecMsg : Str := pyS "mmdc command not found during execution."

/-- Message on subprocess timeout. -/
def cliTimeoutMsg : Str := pyS "Mermaid script validation with mmdc timed out."

/-- Message on a nonzero exit code. -/
def cliFailMsg (rc : Nat) (errOutput : Str) : Str :=
  pyS "Mermaid script validation failed with mmdc. Return code: " ++ pyS (toString rc) ++
    pyS ". Error: " ++ pyStrip errOutput

/-- Message on an unexpected exception during validation. -/
def cliUnexpectedMsg (emsg : Str) : Str :=
  pyS "An unexpected error occurred during mmdc validation: " ++ emsg

/-- The fence-stripping prelude of `_validate_mermaid_with_cli`:
`clean_script[len("```mermaid"):-len("```")].strip()` when the script
carries both fences, else dropping a bare leading `mermaid`. -/
def stripFencesForCli (script : Str) : Str :=
  let clean := pyStrip script
  if isPrefixB fenceOpenL clean && isSuffixB fenceCloseL clean then
    pyStrip ((clean.take (clean.length - 3)).drop 10)
  else if isPrefixB (pyS "mermaid") clean then pyStrip (clean.drop 7)
  else clean

/-- Embeds `TechnicalWriterAgent._validate_mermaid_with_cli`: Tier 2 of the
gate, returning the `(valid, message)` pair of the source; the
subprocess interaction is abstracted as an `MmdcRun` input. -/
def validate_mermaid_with_cli (mmdcAvailable : Bool) (run : MmdcRun) (script : Str) : Bool × Str :=
  if !mmdcAvailable then (true, cliUnavailableMsg)
  else
    let clean := stripFencesForCli script
    if clean.isEmpty then (false, cliEmptyMsg)
    else
      match run with
      | .exitCode 0 _ => (true, cliSuccessMsg)
      | .exitCode rc errOutput => (false, cliFailMsg rc errOutput)
      | .notFound => (true, cliNotFoundExecMsg)
      | .timedOut => (false, cliTimeoutMsg)
      | .raisedError emsg => (false, cliUnexpectedMsg emsg)

/-! ## The diagram stage (`_generate_solution_architecture_mermaid`) -/

/-- Outcome of one oracle call producing a single required string
field (the `pydantic_ai` agent run in the source): a returned content
value, a missing/false-y container or output, or a raised exception
with its rendered message. -/
inductive FieldRun where
  | ok (content : Str)
  | noOutput
  | raises (emsg : Str)
deriving DecidableEq

/-- Renders `str()` of an `LLMGenerationError` raised by the technical writer
agent (quoting the agent name, exceptions.py lines 16-17). -/
def agentStr (m : Str) : Str :=
  pyS "Agent " ++ sqm ++ pyS "TechnicalWriterAgent" ++ sqm ++ pyS ": " ++ m

/-- The first half of the fence normalization the diagram stage
applies to the raw oracle output (lines 352-353 of the agent):
prepend `"```mermaid\n"` to the stripped script when the stripped
script does not already start with the opening fence. -/
def normalizeFront (raw : Str) : Str :=
  if !isPrefixB fenceOpenL (pyStrip raw) then fenceOpenL ++ [Char.ofNat 10] ++ pyStrip raw
  else raw

/-- The second half of the fence normalization (lines 354-355):
append `"\n```"` to the stripped script when the stripped script does
not already end with a closing fence. -/
def normalizeBack (s1 : Str) : Str :=
  if !isSuffixB fenceCloseL (pyStrip s1) then pyStrip s1 ++ [Char.ofNat 10] ++ fenceCloseL
  else s1

/-- The fence normalization the diagram stage applies to the raw
oracle output before validating it (lines 352-355 of the agent). -/
def normalizeMermaid (raw : Str) : Str := normalizeBack (normalizeFront raw)

/-- The message of the `LLMGenerationError` for a missing or empty
oracle result in the diagram stage. -/
def mermaidEmptyOracleMsg : Str :=
  pyS "LLM did not return expected output or script was empty for Mermaid diagram."

/-- The `validation_err_str` set when Tier 1 fails. -/
def basicFailMsg : Str := pyS "Basic Mermaid syntax validation failed. Script may be malformed."

/-- Result of the diagram stage: a raised `LLMGenerationError`, a
raised `MermaidValidationError`, or the `(script, reportable_error)`
pair the stage returns. -/
inductive MermaidStageOutcome where
  | generationError (msg : Str)
  | validationError (msg : Str)
  | ok (script : Str) (reportable : Option Str)
deriving DecidableEq

/-- The `reportable_error` computation at the end of the stage
(lines 374-378): the CLI message itself when it mentions tool absence
or timeout, else the Tier 1 warning when the CLI run succeeded. -/
def reportableOf (cliMessage : Str) (cliValid : Bool) (vErr : Option Str) : Option Str :=
  if isInfixB (pyS "mmdc not found") cliMessage || isInfixB (pyS "timed out") cliMessage then
    some cliMessage
  else if vErr.isSome && cliValid then vErr
  else none

/-- The `if not cli_valid` ladder plus the `reportable_error`
computation of the diagram stage (lines 362-380), applied to the
normalized script `s2`, the Tier 1 verdict and the Tier 2 result. -/
def mermaidValidationLadder (s2 : Str) (basicOk : Bool) (cli : Bool × Str) :
    MermaidStageOutcome :=
  let vErr : Option Str := if basicOk then none else some basicFailMsg
  let cliValid := cli.1
  let cliMessage := cli.2
  if !cliValid && !isInfixB (pyS "mmdc not found") cliMessage &&
      !isInfixB (pyS "timed out") cliMessage && !isInfixB (pyS "unexpected error") cliMessage then
    .validationError (pyS "Mermaid CLI validation failed: " ++ cliMessage)
  else if !cliValid && isInfixB (pyS "mmdc not found") cliMessage then
    let vErr2 := if !basicOk then some ((vErr.getD []) ++ pyS " CLI check skipped: " ++ cliMessage) else vErr
    .ok s2 (reportableOf cliMessage cliValid vErr2)
  else if !cliValid && !basicOk then
    .validationError (vErr.getD
      (pyS "Basic Mermaid syntax validation failed and CLI validation could not be performed."))
  else .ok s2 (reportableOf cliMessage cliValid vErr)

/-- Embeds `TechnicalWriterAgent._generate_solution_architecture_mermaid`
after the prompt is issued: normalizes the oracle output, runs both
validation tiers, raises per the `if not cli_valid` ladder of the source
(lines 362-372), else returns the script with `reportable_error`. -/
def generate_solution_architecture_mermaid
    (mmdcAvailable : Bool) (run : MmdcRun) (oracle : FieldRun) : MermaidStageOutcome :=
  match oracle with
  | .raises emsg => .generationError (pyS "Failed to generate Mermaid script: " ++ emsg)
  | .noOutput => .generationError mermaidEmptyOracleMsg
  | .ok raw =>
    if raw.isEmpty then .generationError mermaidEmptyOracleMsg
    else
      mermaidValidationLadder (normalizeMermaid raw)
        (validate_mermaid_basic (normalizeMermaid raw))
        (validate_mermaid_with_cli mmdcAvailable run (normalizeMermaid raw))

/-! ## The three textual stages and the OEM review
(`technical_writer_agent.py`) -/

/-- Embeds `_generate_understanding_requirements` after the prompt is built:
a raised oracle exception, or a missing/empty content value, raises an
`LLMGenerationError` (the inner raise is re-wrapped by the except clause of the stage
`except`); any non-empty content — including whitespace-only content —
is returned unchanged. -/
def generate_understanding_requirements (run : FieldRun) : Except Str Str :=
  match run with
  | .ok c =>
    if !c.isEmpty then .ok c
    else .error (pyS "Failed to generate understanding of requirements: " ++
      agentStr (pyS "LLM did not return expected output or content was empty for understanding requirements."))
  | .noOutput => .error (pyS "Failed to generate understanding of requirements: " ++
      agentStr (pyS "LLM did not return expected output or content was empty for understanding requirements."))
  | .raises emsg => .error (pyS "Failed to generate understanding of requirements: " ++ emsg)

/-- Embeds `_generate_solution_overview` after the prompt is built; same
shape as the understanding stage with its own messages. -/
def generate_solution_overview (run : FieldRun) : Except Str Str :=
  match run with
  | .ok c =>
    if !c.isEmpty then .ok c
    else .error (pyS "Failed to generate solution overview: " ++
      agentStr (pyS "LLM did not return expected output or content was empty for solution overview."))
  | .noOutput => .error (pyS "Failed to generate solution overview: " ++
      agentStr (pyS "LLM did not return expected output or content was empty for solution overview."))
  | .raises emsg => .error (pyS "Failed to generate solution overview: " ++ emsg)

/-- Embeds `_generate_solution_architecture_text` after the prompt is built;
same shape with its own messages. -/
def generate_solution_architecture_text (run : FieldRun) : Except Str Str :=
  match run with
  | .ok c =>
    if !c.isEmpty then .ok c
    else .error (pyS "Failed to generate solution architecture text: " ++
      agentStr (pyS "LLM did not return expected output or content was empty for solution architecture text."))
  | .noOutput => .error (pyS "Failed to generate solution architecture text: " ++
      agentStr (pyS "LLM did not return expected output or content was empty for solution architecture text."))
  | .raises emsg => .error (pyS "Failed to generate solution architecture text: " ++ emsg)

/-- Outcome of the structured OEM-review oracle call: a returned
review (title and content fields), a missing/false-y container or
output or content, or a raised exception. -/
inductive LlmRun where
  | success (title content : Str)
  | noOutput
  | raises (emsg : Str)
deriving DecidableEq

/-- The errors `generate_oem_review` can raise: the `ValueError` of
its input check, or an `LLMGenerationError` (carrying the message of
exceptions.py). -/
inductive AgentError where
  | valueError (msg : Str)
  | llmGenerationError (msg : Str)
deriving DecidableEq

/-- The inner empty-output message of `generate_oem_review`. -/
def oemEmptyMsg (name : Str) : Str :=
  pyS "LLM did not return expected output or content was empty for OEM review of " ++
    sqm ++ name ++ sqm ++ pyS "."

/-- The outer wrapper message of `generate_oem_review`. -/
def oemWrapMsg (name rendered : Str) : Str :=
  pyS "Failed to generate OEM review for " ++ sqm ++ name ++ sqm ++ pyS ": " ++ rendered

/-- Embeds `TechnicalWriterAgent.generate_oem_review`: rejects an empty
product name, overwrites the product-name field, substitutes a default
title, and raises an `LLMGenerationError` on oracle failure or on
missing/empty content (its inner raise is caught by its own `except`
and re-wrapped).  The success value is the
`(oem_product_name, title, content)` triple of the review. -/
def generate_oem_review (run : LlmRun) (name : Str) : Except AgentError (Str × Str × Str) :=
  if name.isEmpty then .error (.valueError (pyS "OEM product name must be provided."))
  else
    match run with
    | .success title content =>
      if !content.isEmpty then
        let title2 := if title.isEmpty || title == pyS "OEM Product Overview"
          then pyS "Overview: " ++ name else title
        .ok (name, title2, content)
      else .error (.llmGenerationError (oemWrapMsg name (agentStr (oemEmptyMsg name))))
    | .noOutput => .error (.llmGenerationError (oemWrapMsg name (agentStr (oemEmptyMsg name))))
    | .raises emsg => .error (.llmGenerationError (oemWrapMsg name emsg))

/-- Whether a Python optional-string value is false-y (`None` or
the empty string). -/
def optFalsy : Option Str → Bool
  | none => true
  | some s => s.isEmpty

/-- Result of `generate_all_technical_content`: the content set with
the diagram warning, or one of the exceptions the method can raise. -/
inductive TechContentOutcome where
  | ok (understanding overview archText mermaidScript : Str) (warn : Option Str)
  | valueError (msg : Str)
  | generationError (msg : Str)
  | mermaidValidationError (msg : Str)
deriving DecidableEq

/-- Embeds `TechnicalWriterAgent.generate_all_technical_content`: the input
checks, then the four ordered stages, each oracle call abstracted as a
`FieldRun`; a stage failure propagates and the later stages are not
reached. -/
def generate_all_technical_content
    (rfpFullText : Str) (rfpSummary : Option Str) (keyRequirements : List Str)
    (chosenTechnology : Str) (uRun oRun aRun mRun : FieldRun)
    (mmdcAvailable : Bool) (cliRun : MmdcRun) : TechContentOutcome :=
  if rfpFullText.isEmpty && optFalsy rfpSummary && keyRequirements.isEmpty then
    .valueError (pyS "Some RFP context (full text, summary, or key requirements) must be provided.")
  else if chosenTechnology.isEmpty then
    .valueError (pyS "A chosen technology must be specified.")
  else
    match generate_understanding_requirements uRun with
    | .error m => .generationError m
    | .ok u =>
      match generate_solution_overview oRun with
      | .error m => .generationError m
      | .ok o =>
        match generate_solution_architecture_text aRun with
        | .error m => .generationError m
        | .ok a =>
          match generate_solution_architecture_mermaid mmdcAvailable cliRun mRun with
          | .generationError m => .generationError m
          | .validationError m => .mermaidValidationError m
          | .ok s w => .ok u o a s w

/-! ## Chunking (`rfp_parser.py`) -/

/-- The `chunk_size` of the `RecursiveCharacterTextSplitter` built in
`RFPParser.parse`. -/
def parserChunkSize : Nat := 4000

/-- The `text_chunks` computation of `RFPParser.parse` (lines 75-89):
no chunks for false-y or whitespace-only text; a single chunk holding
the whole text when `len(full_text) < chunk_size` (strictly); texts at
or above the window are handed to the external
`RecursiveCharacterTextSplitter.split_text`, abstracted here as the
`split_text` argument. -/
def parse_text_chunks (split_text : Str → List Str) (fullText : Str) : Option (List Str) :=
  if fullText.isEmpty then none
  else if (pyStrip fullText).isEmpty then none
  else if fullText.length < parserChunkSize then some [fullText]
  else some (split_text fullText)

/-! ## Prompt configuration (`config_loader.py` and the technical
writer construction) -/

/-- A JSON value in the prompts file: a string, or a value of another
JSON type (carrying its Python type name for the error message). -/
inductive JVal where
  | jstr (s : Str)
  | other (typeName : Str)
deriving DecidableEq

/-- The prompts resource handed to `load_prompts`: a missing file, a
JSON-decoding failure, or a decoded top-level object given as a keyed
list. -/
inductive PromptsFile where
  | missing
  | badJson (emsg : Str)
  | parsed (entries : List (Str × JVal))
deriving DecidableEq

/-- The `EXPECTED_PROMPT_KEYS` list of config_loader.py. -/
def EXPECTED_PROMPT_KEYS : List Str :=
  [pyS "rfp_review", pyS "understanding_requirements", pyS "solution_overview",
   pyS "solution_architecture_text", pyS "solution_architecture_mermaid", pyS "oem_review"]

/-- Joins strings with a comma and space (the join of missing_keys in the
error message of the loader). -/
def joinCommaSep : List Str → Str
  | [] => []
  | [s] => s
  | s :: rest => s ++ pyS ", " ++ joinCommaSep rest

/-- Dictionary lookup on the keyed list model of a JSON object. -/
def lookupEntry (entries : List (Str × JVal)) (key : Str) : Option JVal :=
  (entries.find? (fun p => p.1 == key)).map (·.2)

/-- Embeds `load_prompts` (config_loader.py): raises `ConfigurationError`
(modelled as `Except.error` with the message of the error) when the file is
missing, undecodable, missing one of the six expected keys, or has a
non-string entry; otherwise returns the prompt dictionary. -/
def load_prompts (path : Str) (file : PromptsFile) : Except Str (List (Str × Str)) :=
  match file with
  | .missing => .error (pyS "Prompts file not found at " ++ path ++ pyS ".")
  | .badJson emsg =>
    .error (pyS "Error decoding JSON from prompts file " ++ path ++ pyS ": " ++ emsg ++ pyS ".")
  | .parsed entries =>
    let missingKeys := EXPECTED_PROMPT_KEYS.filter (fun k => !(entries.any (fun p => p.1 == k)))
    if !missingKeys.isEmpty then
      .error (pyS "Missing essential prompt keys in " ++ path ++ pyS ": " ++ joinCommaSep missingKeys)
    else
      match entries.find? (fun p => match p.2 with | .jstr _ => false | .other _ => true) with
      | some p =>
        .error (pyS "Invalid type for prompt " ++ sqm ++ p.1 ++ sqm ++ pyS " in " ++ path ++
          pyS ". Expected string, got " ++
          (match p.2 with | .jstr _ => [] | .other t => t) ++ pyS ".")
      | none => .ok (entries.map (fun p => (p.1, match p.2 with | .jstr s => s | .other _ => [])))

/-- The five prompt keys the technical writer constructor resolves. -/
def TW_PROMPT_KEYS : List Str :=
  [pyS "understanding_requirements", pyS "solution_overview",
   pyS "solution_architecture_text", pyS "solution_architecture_mermaid", pyS "oem_review"]

/-- String-valued dictionary lookup for the loaded prompt map. -/
def lookupStr (entries : List (Str × Str)) (key : Str) : Option Str :=
  (entries.find? (fun p => p.1 == key)).map (·.2)

/-- The prompt resolution of `TechnicalWriterAgent.__init__`
(lines 129-153): a `ConfigurationError` (or any other exception) from
`load_prompts` is caught and replaced by the empty dictionary — the
constructor never fails because of the prompts resource; each of the
five keys then gets the loaded prompt when present and the built-in
default otherwise.  The built-in `DEFAULT_PROMPTS` table is passed in
as `defaults`. -/
def twagent_init_prompts (defaults : Str → Str) (path : Str) (file : PromptsFile) :
    List (Str × Str) :=
  let loaded : List (Str × Str) :=
    match load_prompts path file with
    | .ok d => d
    | .error _ => []
  TW_PROMPT_KEYS.map (fun k =>
    match lookupStr loaded k with
    | none => (k, defaults k)
    | some v => if v == defaults k then (k, defaults k) else (k, v))

/-! ## The run-level pipeline (`generator.py`) -/

/-- Outcome of the parsing step (`RFPParser` construction and
`parse()`): the parsed document (file name and full text), a
`FileNotFoundError`, or an `RFPParserError` with its message. -/
inductive ParseRun where
  | ok (fileName : Option Str) (fullText : Str)
  | fileNotFound
  | parserError (emsg : Str)
deriving DecidableEq

/-- Outcome of `RFPReviewerAgent.review_rfp`: the reviewed fields, or
a raised `LLMGenerationError` carrying its rendered `str()`. -/
inductive ReviewRun where
  | ok (summary : Option Str) (keyRequirements : Option (List Str))
      (evaluationCriteria : Option (List Str))
  | raises (rendered : Str)
deriving DecidableEq

/-- Outcome of `ProposalGenerator.generate_proposal`: the assembled
proposal data handed to the formatter, a `ProposalGenerationError`
(the run-level wrapper, carrying its `stage` tag and message), or an
exception type the method does not catch (`ValueError` from the input
checks). -/
inductive GPOutcome where
  | ok (rfpRef : Option Str) (tech understanding overview archText mermaidScript : Str)
      (warn : Option Str) (oemReview : Option (Str × Str × Str))
  | runError (stage msg : Str)
  | uncaught (msg : Str)
deriving DecidableEq

/-- Renders `str()` of a `MermaidValidationError` (exceptions.py). -/
def mermaidErrStr (m : Str) : Str :=
  pyS "Mermaid Validation Error (Agent " ++ sqm ++ pyS "TechnicalWriterAgent" ++ sqm ++
    pyS "): " ++ m

/-- Embeds `ProposalGenerator.generate_proposal`: parses, reviews, generates
the technical content set, optionally runs the keyword-triggered OEM
review, and assembles the result; each caught exception is wrapped
into a `ProposalGenerationError` tagged with the fixed stage name of
the phase that failed ("RFP Parsing", "RFP Review",
"Technical Content Generation", "OEM Review Generation"). -/
def generate_proposal (rfpFilePath : Str) (parse : ParseRun) (review : ReviewRun)
    (uRun oRun aRun mRun : FieldRun) (mmdcAvailable : Bool) (cliRun : MmdcRun)
    (oemKeywords : List Str) (oemRun : LlmRun) (targetTechnology : Str) : GPOutcome :=
  match parse with
  | .fileNotFound =>
    .runError (pyS "RFP Parsing") (pyS "RFP file not found: " ++ rfpFilePath)
  | .parserError emsg =>
    .runError (pyS "RFP Parsing") (pyS "Failed to parse RFP file: " ++ emsg)
  | .ok fileName fullText =>
    if fullText.isEmpty || (pyStrip fullText).isEmpty then
      .runError (pyS "RFP Parsing") (pyS "Failed to parse RFP file: RFP file " ++ sqm ++
        rfpFilePath ++ sqm ++ pyS " parsed but resulted in empty content.")
    else
      match review with
      | .raises rendered =>
        .runError (pyS "RFP Review") (pyS "Error during RFP review: " ++ rendered)
      | .ok summary keyRequirements _evaluationCriteria =>
        match generate_all_technical_content fullText summary (keyRequirements.getD [])
            targetTechnology uRun oRun aRun mRun mmdcAvailable cliRun with
        | .valueError m => .uncaught m
        | .generationError m =>
          .runError (pyS "Technical Content Generation")
            (pyS "Error during technical content generation: " ++ agentStr m)
        | .mermaidValidationError m =>
          .runError (pyS "Technical Content Generation")
            (pyS "Error during technical content generation: " ++ mermaidErrStr m)
        | .ok u o a s w =>
          if is_oem_technology oemKeywords targetTechnology then
            match generate_oem_review oemRun targetTechnology with
            | .ok r => .ok fileName targetTechnology u o a s w (some r)
            | .error (.llmGenerationError em) =>
              .runError (pyS "OEM Review Generation")
                (pyS "Error generating OEM review for " ++ sqm ++ targetTechnology ++ sqm ++
                  pyS ": " ++ agentStr em)
            | .error (.valueError em) => .uncaught em
          else .ok fileName targetTechnology u o a s w none

/-! ## Lemmas about the string model -/

theorem isPrefixB_append_right {p l : Str} (m : Str) (h : isPrefixB p l = true) :
    isPrefixB p (l ++ m) = true := by
  rcases (isPrefixB_iff p l).mp h with ⟨post, rfl⟩
  exact (isPrefixB_iff p _).mpr ⟨post ++ m, by simp⟩

theorem isPrefixB_self_append (p m : Str) : isPrefixB p (p ++ m) = true :=
  (isPrefixB_iff p _).mpr ⟨m, rfl⟩

theorem isSuffixB_self_append (s m : Str) : isSuffixB s (m ++ s) = true := by
  unfold isSuffixB
  rw [List.reverse_append]
  exact isPrefixB_self_append _ _

theorem stripLeft_cons_of_not_ws {c : Char} (l : Str) (h : c.isWhitespace = false) :
    stripLeft (c :: l) = c :: l := by
  simp [stripLeft, List.dropWhile_cons, h]

theorem stripRight_append_last {c : Char} (l : Str) (h : c.isWhitespace = false) :
    stripRight (l ++ [c]) = l ++ [c] := by
  simp [stripRight, List.dropWhile_cons, h]

theorem isEmpty_eq_decide (x : Str) : x.isEmpty = decide (x = []) := by
  cases x <;> simp

theorem stripRight_isEmpty_eq (l : Str) :
    (stripRight l).isEmpty = (List.dropWhile Char.isWhitespace l.reverse).isEmpty := by
  unfold stripRight
  rw [isEmpty_eq_decide, isEmpty_eq_decide]
  exact decide_eq_decide.mpr List.reverse_eq_nil_iff

theorem stripRight_append (l₁ l₂ : Str) :
    stripRight (l₁ ++ l₂) =
      if (stripRight l₂).isEmpty then stripRight l₁ else l₁ ++ stripRight l₂ := by
  rw [stripRight_isEmpty_eq]
  unfold stripRight
  rw [List.reverse_append, List.dropWhile_append]
  by_cases h : (List.dropWhile Char.isWhitespace l₂.reverse).isEmpty
  · rw [if_pos h, if_pos h]
  · rw [if_neg h, if_neg h, List.reverse_append, List.reverse_reverse]

theorem stripRight_stripRight (l : Str) : stripRight (stripRight l) = stripRight l := by
  unfold stripRight
  rw [List.reverse_reverse]
  exact congrArg List.reverse (List.dropWhile_idempotent _ _)

theorem stripRight_pyStrip (l : Str) : stripRight (pyStrip l) = pyStrip l :=
  stripRight_stripRight (stripLeft l)

theorem stripRight_isEmpty_pyStrip (l : Str) :
    (stripRight (pyStrip l)).isEmpty = (pyStrip l).isEmpty := by
  rw [stripRight_pyStrip]

theorem pyStrip_grave_cons (l : Str) : pyStrip ('`' :: l) = stripRight ('`' :: l) := by
  unfold pyStrip
  rw [stripLeft_cons_of_not_ws _ (by decide)]

/-- The fence-plus-newline list `pyStrip` fixed point: any list that
starts with a backtick and ends with a backtick is untouched by
`pyStrip`. -/
theorem pyStrip_grave_to_grave (mid : Str) :
    pyStrip ('`' :: (mid ++ ['`'])) = '`' :: (mid ++ ['`']) := by
  unfold pyStrip
  rw [stripLeft_cons_of_not_ws _ (by decide),
    show ('`' :: (mid ++ ['`'])) = ('`' :: mid) ++ ['`'] from rfl,
    stripRight_append_last _ (by decide)]

theorem isPrefixB_refl (p : Str) : isPrefixB p p = true :=
  (isPrefixB_iff p p).mpr ⟨[], by simp⟩

theorem stripLeft_eq_self_of_fence {x : Str} (hx : isPrefixB fenceOpenL x = true) :
    stripLeft x = x := by
  rcases (isPrefixB_iff _ _).mp hx with ⟨post, rfl⟩
  exact stripLeft_cons_of_not_ws _ (by decide)

theorem stripRight_eq_self_of_fence {x : Str} (hx : isSuffixB fenceCloseL x = true) :
    stripRight x = x := by
  rcases (isPrefixB_iff _ _).mp hx with ⟨post, hrev⟩
  have hxe : x = post.reverse ++ fenceCloseL := by
    have h2 := congrArg List.reverse hrev
    rw [List.reverse_reverse, List.reverse_append, List.reverse_reverse] at h2
    exact h2
  rw [hxe,
    show post.reverse ++ fenceCloseL = (post.reverse ++ ['`', '`']) ++ ['`'] by
      simp [fenceCloseL, pyS, List.append_assoc]]
  rw [stripRight_append_last _ (by decide)]

theorem pyStrip_eq_self_of_fences {x : Str} (h1 : isPrefixB fenceOpenL x = true)
    (h2 : isSuffixB fenceCloseL x = true) : pyStrip x = x := by
  unfold pyStrip
  rw [stripLeft_eq_self_of_fence h1, stripRight_eq_self_of_fence h2]

/-- The front half of the fence normalization always leaves a script
whose stripped form starts with the opening fence marker. -/
theorem normalizeFront_fence_start (raw : Str) :
    isPrefixB fenceOpenL (pyStrip (normalizeFront raw)) = true := by
  unfold normalizeFront
  cases hx : isPrefixB fenceOpenL (pyStrip raw) with
  | true => simpa using hx
  | false =>
    simp only [hx, Bool.not_false, if_true]
    have hpre : isPrefixB fenceOpenL (fenceOpenL ++ [Char.ofNat 10] ++ pyStrip raw) = true :=
      isPrefixB_append_right _ (isPrefixB_append_right _ (isPrefixB_refl _))
    rw [pyStrip, stripLeft_eq_self_of_fence hpre, List.append_assoc, stripRight_append]
    by_cases he : (stripRight ([Char.ofNat 10] ++ pyStrip raw)).isEmpty
    · rw [if_pos he, show stripRight fenceOpenL = fenceOpenL by decide]
      exact isPrefixB_refl _
    · rw [if_neg he]
      exact isPrefixB_self_append _ _

/-- The fence normalization of the diagram stage always produces a
script that, after stripping surrounding whitespace, starts with the
opening fence marker and ends with the closing one. -/
theorem normalizeMermaid_fenced (raw : Str) :
    isPrefixB fenceOpenL (pyStrip (normalizeMermaid raw)) = true ∧
      isSuffixB fenceCloseL (pyStrip (normalizeMermaid raw)) = true := by
  have hpre := normalizeFront_fence_start raw
  unfold normalizeMermaid normalizeBack
  cases hs : isSuffixB fenceCloseL (pyStrip (normalizeFront raw)) with
  | true => simp [hs, hpre]
  | false =>
    simp only [hs, Bool.not_false, if_true]
    have h1 : isPrefixB fenceOpenL
        (pyStrip (normalizeFront raw) ++ [Char.ofNat 10] ++ fenceCloseL) = true :=
      isPrefixB_append_right _ (isPrefixB_append_right _ hpre)
    have h2 : isSuffixB fenceCloseL
        (pyStrip (normalizeFront raw) ++ [Char.ofNat 10] ++ fenceCloseL) = true :=
      isSuffixB_self_append _ _
    rw [pyStrip_eq_self_of_fences h1 h2]
    exact ⟨h1, h2⟩

theorem generate_mermaid_ok_unfold (mmdcAvailable : Bool) (run : MmdcRun) (raw : Str)
    (hraw : raw.isEmpty = false) :
    generate_solution_architecture_mermaid mmdcAvailable run (.ok raw) =
      mermaidValidationLadder (normalizeMermaid raw)
        (validate_mermaid_basic (normalizeMermaid raw))
        (validate_mermaid_with_cli mmdcAvailable run (normalizeMermaid raw)) := by
  simp only [generate_solution_architecture_mermaid, hraw]
  simp

theorem ladder_unavailable (s2 : Str) (b : Bool) :
    mermaidValidationLadder s2 b (true, cliUnavailableMsg) =
      .ok s2 (if b then none else some basicFailMsg) := by
  cases b <;> rfl

theorem ladder_timeout (s2 : Str) (b : Bool) :
    mermaidValidationLadder s2 b (false, cliTimeoutMsg) =
      if b then .ok s2 (some cliTimeoutMsg) else .validationError basicFailMsg := by
  cases b <;> rfl

theorem cli_unavailable (run : MmdcRun) (s : Str) :
    validate_mermaid_with_cli false run s = (true, cliUnavailableMsg) := rfl

theorem cli_timeout_of_nonempty (s : Str) (h : (stripFencesForCli s).isEmpty = false) :
    validate_mermaid_with_cli true .timedOut s = (false, cliTimeoutMsg) := by
  unfold validate_mermaid_with_cli
  simp [h]

theorem normalizeMermaid_ne_empty (raw : Str) : (normalizeMermaid raw).isEmpty = false := by
  obtain ⟨h1, -⟩ := normalizeMermaid_fenced raw
  cases hh : normalizeMermaid raw with
  | nil =>
    rw [hh] at h1
    exact absurd h1 (by decide)
  | cons a l => rfl

/-- On a normalized script the Tier 1 check reduces to the
diagram-definition search: the fence test always passes and the
bracket scan never enters the result. -/
theorem validate_basic_of_normalized (raw : Str) :
    validate_mermaid_basic (normalizeMermaid raw) =
      hasGraphDefinition (pyStrip (normalizeMermaid raw)) := by
  obtain ⟨h1, h2⟩ := normalizeMermaid_fenced raw
  unfold validate_mermaid_basic
  rw [normalizeMermaid_ne_empty raw]
  cases hg : hasGraphDefinition (pyStrip (normalizeMermaid raw)) with
  | true => simp [h1, h2, hg]
  | false => simp [h1, h2, hg]

theorem ladder_shape (s2 : Str) (b : Bool) (cli : Bool × Str) :
    (∃ m, mermaidValidationLadder s2 b cli = .validationError m) ∨
      (∃ w, mermaidValidationLadder s2 b cli = .ok s2 w) := by
  simp only [mermaidValidationLadder]
  generalize cli.2 = cm
  generalize cli.1 = cv
  generalize isInfixB (pyS "mmdc not found") cm = i1
  generalize isInfixB (pyS "timed out") cm = i2
  generalize isInfixB (pyS "unexpected error") cm = i3
  cases cv <;> cases b <;> cases i1 <;> cases i2 <;> cases i3 <;> simp

theorem ladder_ok_script {s2 s : Str} {b : Bool} {cli : Bool × Str} {w : Option Str}
    (h : mermaidValidationLadder s2 b cli = .ok s w) : s = s2 := by
  rcases ladder_shape s2 b cli with ⟨m, hm⟩ | ⟨w2, hw⟩
  · rw [hm] at h; cases h
  · rw [hw] at h; cases h; rfl

/-! ## Claim theorems: the diagram validation gate -/

theorem generate_mermaid_empty (mmdcAvailable : Bool) (run : MmdcRun) (raw : Str)
    (hraw : raw.isEmpty = true) :
    generate_solution_architecture_mermaid mmdcAvailable run (.ok raw) =
      .generationError mermaidEmptyOracleMsg := by
  simp only [generate_solution_architecture_mermaid, hraw]
  simp

/-- C3: for every diagram script that passes the Tier 1 structural
check, when the external renderer (Tier 2) is unavailable, the
verdict is Accepted: the stage returns the normalized script with no
warning or diagnostic message attached. -/
theorem c3_tier1_pass_tier2_unavailable_accepted (raw : Str) (run : MmdcRun)
    (hraw : raw.isEmpty = false)
    (hb : validate_mermaid_basic (normalizeMermaid raw) = true) :
    generate_solution_architecture_mermaid false run (.ok raw) =
      .ok (normalizeMermaid raw) none := by
  rw [generate_mermaid_ok_unfold false run raw hraw, cli_unavailable, hb, ladder_unavailable]
  simp

/-- Witness for C3 at the concrete script of the claim:
`graph TD;\n A --> B;` wrapped in fence markers, Tier 2 unavailable. -/
theorem c3_witness :
    (pyS "```mermaid\ngraph TD;\n A --> B;\n```").isEmpty = false ∧
    validate_mermaid_basic (normalizeMermaid (pyS "```mermaid\ngraph TD;\n A --> B;\n```")) = true ∧
    generate_solution_architecture_mermaid false .notFound
        (.ok (pyS "```mermaid\ngraph TD;\n A --> B;\n```")) =
      .ok (normalizeMermaid (pyS "```mermaid\ngraph TD;\n A --> B;\n```")) none :=
  ⟨by decide, by decide,
    c3_tier1_pass_tier2_unavailable_accepted _ .notFound (by decide) (by decide)⟩

/-- C2 counterexample: with Tier 2 available but timing out and
Tier 1 failed (the script `hello` has no diagram keyword), the stage
raises a `MermaidValidationError` — the verdict is Rejected, not the
AcceptedWithWarning the claim asserts, and the rejection did not come
from a nonzero renderer exit. -/
theorem c2_counterexample :
    generate_solution_architecture_mermaid true .timedOut (.ok (pyS "hello")) =
      .validationError basicFailMsg := by decide

/-- C2 amended: when Tier 2 is attempted and times out (script
non-empty after fence stripping), the verdict is Rejected when Tier 1
failed, and AcceptedWithWarning (timeout message attached) when
Tier 1 passed. -/
theorem c2_amended_timeout_behavior (raw : Str)
    (hraw : raw.isEmpty = false)
    (hne : (stripFencesForCli (normalizeMermaid raw)).isEmpty = false) :
    generate_solution_architecture_mermaid true .timedOut (.ok raw) =
      if validate_mermaid_basic (normalizeMermaid raw) then
        .ok (normalizeMermaid raw) (some cliTimeoutMsg)
      else .validationError basicFailMsg := by
  rw [generate_mermaid_ok_unfold true .timedOut raw hraw, cli_timeout_of_nonempty _ hne,
    ladder_timeout]

/-- Witness for the amended C2 at a Tier-1-passing script. -/
theorem c2_witness :
    (pyS "graph TD;\n A --> B;").isEmpty = false ∧
    (stripFencesForCli (normalizeMermaid (pyS "graph TD;\n A --> B;"))).isEmpty = false ∧
    generate_solution_architecture_mermaid true .timedOut (.ok (pyS "graph TD;\n A --> B;")) =
      (if validate_mermaid_basic (normalizeMermaid (pyS "graph TD;\n A --> B;")) then
        .ok (normalizeMermaid (pyS "graph TD;\n A --> B;")) (some cliTimeoutMsg)
      else .validationError basicFailMsg) :=
  ⟨by decide, by decide, c2_amended_timeout_behavior _ (by decide) (by decide)⟩

/-- C4 counterexample: at the example script of the claim itself,
`graph TD; A[Start --> B;` (unbalanced `[`), Tier 1 reports success —
the bracket scan does not even log for an unclosed opener — and with
Tier 2 unavailable the verdict is Accepted with no warning, not
AcceptedWithWarning. -/
theorem c4_counterexample :
    validate_mermaid_basic (normalizeMermaid (pyS "graph TD; A[Start --> B;")) = true ∧
    bracketMismatchLogged (pyStrip (normalizeMermaid (pyS "graph TD; A[Start --> B;"))) [] = false ∧
    generate_solution_architecture_mermaid false .notFound (.ok (pyS "graph TD; A[Start --> B;")) =
      .ok (normalizeMermaid (pyS "graph TD; A[Start --> B;")) none := by decide

/-- C4 amended: delimiter balance never enters the Tier 1 verdict:
every script whose normalized form contains a diagram definition —
balanced or not — passes Tier 1, and with Tier 2 unavailable the
Gate accepts it with no warning (in particular it is not Rejected). -/
theorem c4_amended_brackets_ignored (raw : Str) (run : MmdcRun)
    (hraw : raw.isEmpty = false)
    (hg : hasGraphDefinition (pyStrip (normalizeMermaid raw)) = true) :
    validate_mermaid_basic (normalizeMermaid raw) = true ∧
    generate_solution_architecture_mermaid false run (.ok raw) =
      .ok (normalizeMermaid raw) none := by
  have hb : validate_mermaid_basic (normalizeMermaid raw) = true := by
    rw [validate_basic_of_normalized raw, hg]
  refine ⟨hb, ?_⟩
  rw [generate_mermaid_ok_unfold false run raw hraw, cli_unavailable, hb, ladder_unavailable]
  simp

/-- Witness for the amended C4 at the unbalanced-bracket script. -/
theorem c4_witness :
    (pyS "graph TD; A[Start --> B;").isEmpty = false ∧
    hasGraphDefinition (pyStrip (normalizeMermaid (pyS "graph TD; A[Start --> B;"))) = true ∧
    (validate_mermaid_basic (normalizeMermaid (pyS "graph TD; A[Start --> B;")) = true ∧
      generate_solution_architecture_mermaid false .timedOut
          (.ok (pyS "graph TD; A[Start --> B;")) =
        .ok (normalizeMermaid (pyS "graph TD; A[Start --> B;")) none) :=
  ⟨by decide, by decide, c4_amended_brackets_ignored _ .timedOut (by decide) (by decide)⟩

/-- C10 counterexample: an oracle output that already carries both
fences but starts with a space is returned unchanged by the stage, so
the returned script does not literally start with the opening fence
marker. -/
theorem c10_counterexample :
    generate_solution_architecture_mermaid false .notFound
        (.ok (pyS " ```mermaid\ngraph TD;\n A --> B;\n```")) =
      .ok (pyS " ```mermaid\ngraph TD;\n A --> B;\n```") none ∧
    isPrefixB fenceOpenL (pyS " ```mermaid\ngraph TD;\n A --> B;\n```") = false := by decide

/-- C10 amended: on every successful completion of the diagram stage
the returned script is fence wrapped up to surrounding whitespace:
after stripping, it starts with the opening fence marker and ends
with the closing one, whatever the oracle returned. -/
theorem c10_amended_fenced_after_strip (mmdcAvailable : Bool) (run : MmdcRun)
    (oracle : FieldRun) (s : Str) (w : Option Str)
    (h : generate_solution_architecture_mermaid mmdcAvailable run oracle = .ok s w) :
    isPrefixB fenceOpenL (pyStrip s) = true ∧ isSuffixB fenceCloseL (pyStrip s) = true := by
  cases oracle with
  | raises emsg => simp [generate_solution_architecture_mermaid] at h
  | noOutput => simp [generate_solution_architecture_mermaid] at h
  | ok raw =>
    cases hraw : raw.isEmpty with
    | true =>
      rw [generate_mermaid_empty mmdcAvailable run raw hraw] at h
      cases h
    | false =>
      rw [generate_mermaid_ok_unfold mmdcAvailable run raw hraw] at h
      rw [ladder_ok_script h]
      exact normalizeMermaid_fenced raw

/-- Witness for the amended C10 at a bare (unfenced) oracle output. -/
theorem c10_witness :
    isPrefixB fenceOpenL (pyStrip (normalizeMermaid (pyS "graph TD;\n A --> B;"))) = true ∧
    isSuffixB fenceCloseL (pyStrip (normalizeMermaid (pyS "graph TD;\n A --> B;"))) = true :=
  c10_amended_fenced_after_strip false .notFound (.ok (pyS "graph TD;\n A --> B;"))
    (normalizeMermaid (pyS "graph TD;\n A --> B;")) none (by decide)

/-! ## Claim theorems: trigger matching, chunking, stage outputs,
prompt configuration -/

/-- C9: the OEM trigger matches a technology name exactly when some
configured keyword is a case-insensitive substring of it; in
particular it fires for "Acme OutSystems Cloud" against the keyword
set containing "outsystems" and not for "Acme Cloud". -/
theorem c9_oem_matches_iff :
    (∀ (oemKeywords : List Str) (technologyName : Str),
      is_oem_technology oemKeywords technologyName = true ↔
        ∃ keyword ∈ oemKeywords, ∃ pre post,
          lowerStr technologyName = pre ++ lowerStr keyword ++ post) ∧
    is_oem_technology [pyS "outsystems"] (pyS "Acme OutSystems Cloud") = true ∧
    is_oem_technology [pyS "outsystems"] (pyS "Acme Cloud") = false := by
  refine ⟨?_, by decide, by decide⟩
  intro ks t
  simp only [is_oem_technology, List.any_eq_true, isInfixB_iff]

theorem isEmpty_false_of_pyStrip {l : Str} (h : (pyStrip l).isEmpty = false) :
    l.isEmpty = false := by
  cases l with
  | nil => exact absurd h (by decide)
  | cons a as => rfl

/-- C8 counterexample: a whitespace-only input shorter than the chunk
window produces no chunk list at all (`text_chunks` stays `None`),
not the single-element list with the input the claim asserts. -/
theorem c8_counterexample :
    (pyS " ").length ≤ parserChunkSize ∧
    parse_text_chunks (fun t => [t]) (pyS " ") = none := by decide

/-- C8 amended: for every input with non-whitespace content whose
length is strictly below the chunk window, the chunker returns
exactly the single-element list holding the unmodified input (inputs
at or above the window are delegated to the external splitter, and
whitespace-only inputs yield no chunk list). -/
theorem c8_amended_short_text_single_chunk (split_text : Str → List Str) (fullText : Str)
    (h1 : (pyStrip fullText).isEmpty = false) (h2 : fullText.length < parserChunkSize) :
    parse_text_chunks split_text fullText = some [fullText] := by
  have h0 : fullText.isEmpty = false := isEmpty_false_of_pyStrip h1
  simp [parse_text_chunks, h0, h1, h2]

/-- Witness for the amended C8. -/
theorem c8_witness :
    (pyStrip (pyS "Full RFP text.")).isEmpty = false ∧
    (pyS "Full RFP text.").length < parserChunkSize ∧
    parse_text_chunks (fun t => [t]) (pyS "Full RFP text.") = some [pyS "Full RFP text."] :=
  ⟨by decide, by decide,
    c8_amended_short_text_single_chunk (fun t => [t]) _ (by decide) (by decide)⟩

/-- C7 counterexample: a whitespace-only (hence non-empty) oracle
output passes the truthiness check of the understanding and overview
stages and is returned as a success, not turned into a
`GenerationError` as the claim asserts for whitespace-only output. -/
theorem c7_counterexample :
    generate_understanding_requirements (.ok (pyS " ")) = .ok (pyS " ") ∧
    generate_solution_overview (.ok (pyS " ")) = .ok (pyS " ") := ⟨rfl, rfl⟩

/-- C7 amended: a stage oracle result is turned into a failure
exactly when it is the empty string; any non-empty result — including
whitespace-only text — is a success carrying that text (the source
checks Python truthiness, it does not strip). -/
theorem c7_amended_empty_only_failure (c : Str) :
    generate_understanding_requirements (.ok c) =
      (if c.isEmpty then
        .error (pyS "Failed to generate understanding of requirements: " ++
          agentStr (pyS "LLM did not return expected output or content was empty for understanding requirements."))
      else .ok c) ∧
    generate_solution_overview (.ok c) =
      (if c.isEmpty then
        .error (pyS "Failed to generate solution overview: " ++
          agentStr (pyS "LLM did not return expected output or content was empty for solution overview."))
      else .ok c) := by
  cases hc : c.isEmpty <;>
    simp [generate_understanding_requirements, generate_solution_overview, hc]

/-- C6 counterexample: with a prompts resource that decodes to an
empty object, `load_prompts` raises a `ConfigurationError` naming all
six expected keys, yet the technical writer construction succeeds and
resolves every stage prompt to its built-in default — construction
does not fail. -/
theorem c6_counterexample :
    load_prompts (pyS "prompts.json") (.parsed []) =
      .error (pyS "Missing essential prompt keys in prompts.json: rfp_review, understanding_requirements, solution_overview, solution_architecture_text, solution_architecture_mermaid, oem_review") ∧
    twagent_init_prompts (fun k => pyS "DEFAULT " ++ k) (pyS "prompts.json") (.parsed []) =
      TW_PROMPT_KEYS.map (fun k => (k, pyS "DEFAULT " ++ k)) := ⟨rfl, rfl⟩

/-- C6 amended: whenever `load_prompts` fails (missing file, bad
JSON, missing key, or malformed entry — all raise
`ConfigurationError`), the technical writer constructor catches the
error and falls back to the built-in default prompt for every stage;
construction itself never fails because of the prompts resource. -/
theorem c6_amended_missing_prompts_fall_back (defaults : Str → Str) (path : Str)
    (file : PromptsFile) (e : Str) (h : load_prompts path file = .error e) :
    twagent_init_prompts defaults path file =
      TW_PROMPT_KEYS.map (fun k => (k, defaults k)) := by
  unfold twagent_init_prompts
  rw [h]
  simp [lookupStr]

/-- Witness for the amended C6 at the empty prompts object. -/
theorem c6_witness :
    twagent_init_prompts (fun _ => pyS "D") (pyS "prompts.json") (.parsed []) =
      TW_PROMPT_KEYS.map (fun k => (k, pyS "D")) :=
  c6_amended_missing_prompts_fall_back (fun _ => pyS "D") (pyS "prompts.json") (.parsed [])
    (pyS "Missing essential prompt keys in prompts.json: rfp_review, understanding_requirements, solution_overview, solution_architecture_text, solution_architecture_mermaid, oem_review")
    rfl

/-! ## Claim theorems: run-level error wrapping and the OEM stage -/

theorem ladder_reject (s2 : Str) (b : Bool) (m : Str)
    (h1 : isInfixB (pyS "mmdc not found") m = false)
    (h2 : isInfixB (pyS "timed out") m = false)
    (h3 : isInfixB (pyS "unexpected error") m = false) :
    mermaidValidationLadder s2 b (false, m) =
      .validationError (pyS "Mermaid CLI validation failed: " ++ m) := by
  simp [mermaidValidationLadder, h1, h2, h3]

theorem cli_exit_succ_of_nonempty (s : Str) (k : Nat) (errOutput : Str)
    (h : (stripFencesForCli s).isEmpty = false) :
    validate_mermaid_with_cli true (.exitCode (k + 1) errOutput) s =
      (false, cliFailMsg (k + 1) errOutput) := by
  unfold validate_mermaid_with_cli
  simp [h]

set_option maxRecDepth 100000 in
/-- C5 counterexample: an oracle failure in the solution-overview
stage is wrapped with stage tag "Technical Content Generation", not
"Overview"; a diagram rejection (renderer exit code 1) is likewise
wrapped with "Technical Content Generation", not
"ArchitectureDiagram". -/
theorem c5_counterexample :
    (generate_proposal (pyS "rfp.md") (.ok (some (pyS "rfp.md")) (pyS "Full RFP text."))
        (.ok (some (pyS "Summary")) (some [pyS "Req 1"]) none)
        (.ok (pyS "Understanding")) (.raises (pyS "LLM API Error")) (.ok (pyS "Arch text"))
        (.ok (pyS "graph TD;\n A --> B;")) false .notFound [pyS "outsystems"] .noOutput
        (pyS "GenericTech") =
      .runError (pyS "Technical Content Generation")
        (pyS "Error during technical content generation: " ++
          agentStr (pyS "Failed to generate solution overview: LLM API Error"))) ∧
    pyS "Technical Content Generation" ≠ pyS "Overview" ∧
    (generate_proposal (pyS "rfp.md") (.ok (some (pyS "rfp.md")) (pyS "Full RFP text."))
        (.ok (some (pyS "Summary")) (some [pyS "Req 1"]) none)
        (.ok (pyS "Understanding")) (.ok (pyS "Overview text")) (.ok (pyS "Arch text"))
        (.ok (pyS "graph TD;\n A --> B;")) true (.exitCode 1 (pyS "syntax error"))
        [pyS "outsystems"] .noOutput (pyS "GenericTech") =
      .runError (pyS "Technical Content Generation")
        (pyS "Error during technical content generation: " ++
          mermaidErrStr (pyS "Mermaid CLI validation failed: " ++
            cliFailMsg 1 (pyS "syntax error")))) ∧
    pyS "Technical Content Generation" ≠ pyS "ArchitectureDiagram" := by
  refine ⟨by decide, by decide, by decide, by decide⟩

/-- C5 amended: the `ProposalGenerationError` of a failing run is tagged
with the fixed name of the generator phase that failed, not with a
per-stage name: an oracle failure in the overview stage — whatever
the later stages would have done — and a diagram rejection by the
gate are both tagged "Technical Content Generation". -/
theorem c5_amended_stage_tags :
    (∀ (path : Str) (fileName : Option Str) (fullText : Str) (summary : Option Str)
        (reqs : Option (List Str)) (crit : Option (List Str)) (tech u e : Str)
        (aRun mRun : FieldRun) (mmdcAvailable : Bool) (cliRun : MmdcRun)
        (kws : List Str) (oemRun : LlmRun),
      (pyStrip fullText).isEmpty = false → tech.isEmpty = false → u.isEmpty = false →
      generate_proposal path (.ok fileName fullText) (.ok summary reqs crit)
          (.ok u) (.raises e) aRun mRun mmdcAvailable cliRun kws oemRun tech =
        .runError (pyS "Technical Content Generation")
          (pyS "Error during technical content generation: " ++
            agentStr (pyS "Failed to generate solution overview: " ++ e))) ∧
    (∀ (path : Str) (fileName : Option Str) (fullText : Str) (summary : Option Str)
        (reqs : Option (List Str)) (crit : Option (List Str)) (tech u o a raw : Str)
        (k : Nat) (errOutput : Str) (kws : List Str) (oemRun : LlmRun),
      (pyStrip fullText).isEmpty = false → tech.isEmpty = false → u.isEmpty = false →
      o.isEmpty = false → a.isEmpty = false → raw.isEmpty = false →
      (stripFencesForCli (normalizeMermaid raw)).isEmpty = false →
      isInfixB (pyS "mmdc not found") (cliFailMsg (k + 1) errOutput) = false →
      isInfixB (pyS "timed out") (cliFailMsg (k + 1) errOutput) = false →
      isInfixB (pyS "unexpected error") (cliFailMsg (k + 1) errOutput) = false →
      generate_proposal path (.ok fileName fullText) (.ok summary reqs crit)
          (.ok u) (.ok o) (.ok a) (.ok raw) true (.exitCode (k + 1) errOutput)
          kws oemRun tech =
        .runError (pyS "Technical Content Generation")
          (pyS "Error during technical content generation: " ++
            mermaidErrStr (pyS "Mermaid CLI validation failed: " ++
              cliFailMsg (k + 1) errOutput))) := by
  constructor
  · intro path fileName fullText summary reqs crit tech u e aRun mRun mmdcAvailable cliRun
      kws oemRun h1 h2 h3
    have h0 : fullText.isEmpty = false := isEmpty_false_of_pyStrip h1
    simp [generate_proposal, generate_all_technical_content,
      generate_understanding_requirements, generate_solution_overview, h0, h1, h2, h3]
  · intro path fileName fullText summary reqs crit tech u o a raw k errOutput kws oemRun
      h1 h2 h3 h4 h5 hraw hne hm1 hm2 hm3
    have h0 : fullText.isEmpty = false := isEmpty_false_of_pyStrip h1
    have hmer : generate_solution_architecture_mermaid true (.exitCode (k + 1) errOutput)
        (.ok raw) =
        .validationError (pyS "Mermaid CLI validation failed: " ++ cliFailMsg (k + 1) errOutput) := by
      rw [generate_mermaid_ok_unfold true (.exitCode (k + 1) errOutput) raw hraw,
        cli_exit_succ_of_nonempty _ k errOutput hne, ladder_reject _ _ _ hm1 hm2 hm3]
    simp [generate_proposal, generate_all_technical_content,
      generate_understanding_requirements, generate_solution_overview,
      generate_solution_architecture_text, hmer, h0, h1, h2, h3, h4, h5]

/-- Witness for the amended C5, instantiating both parts at concrete
runs. -/
theorem c5_witness :
    (generate_proposal (pyS "rfp.md") (.ok (some (pyS "rfp.md")) (pyS "Full RFP text."))
        (.ok (some (pyS "Summary")) (some [pyS "Req 1"]) none)
        (.ok (pyS "Understanding")) (.raises (pyS "LLM API Error")) (.ok (pyS "Arch text"))
        (.ok (pyS "graph TD;\n A --> B;")) false .notFound [pyS "outsystems"] .noOutput
        (pyS "GenericTech") =
      .runError (pyS "Technical Content Generation")
        (pyS "Error during technical content generation: " ++
          agentStr (pyS "Failed to generate solution overview: LLM API Error"))) ∧
    (generate_proposal (pyS "rfp.md") (.ok (some (pyS "rfp.md")) (pyS "Full RFP text."))
        (.ok (some (pyS "Summary")) (some [pyS "Req 1"]) none)
        (.ok (pyS "Understanding")) (.ok (pyS "Overview text")) (.ok (pyS "Arch text"))
        (.ok (pyS "graph TD;\n A --> B;")) true (.exitCode 1 (pyS "syntax error"))
        [pyS "outsystems"] .noOutput (pyS "GenericTech") =
      .runError (pyS "Technical Content Generation")
        (pyS "Error during technical content generation: " ++
          mermaidErrStr (pyS "Mermaid CLI validation failed: " ++
            cliFailMsg 1 (pyS "syntax error")))) :=
  ⟨c5_amended_stage_tags.1 _ _ _ _ _ _ _ _ _ _ _ _ _ _ _ (by decide) (by decide) (by decide),
   c5_amended_stage_tags.2 _ _ _ _ _ _ _ _ _ _ _ 0 _ _ _ (by decide) (by decide) (by decide)
     (by decide) (by decide) (by decide) (by decide) (by decide) (by decide) (by decide)⟩

set_option maxRecDepth 100000 in
/-- C1: the claim (spec §4.4/§7 and the test of the repository itself,
`test_generate_oem_review_llm_exception`) says an oracle failure in
the OEM augmentation stage degrades to a fallback review embedding
the error message, never aborting the run.  The code instead lets
`generate_oem_review` raise an `LLMGenerationError`, which
`generate_proposal` wraps into a run-aborting
`ProposalGenerationError` tagged "OEM Review Generation": at a run
whose OEM oracle raises "LLM API Error for OEM", the pipeline aborts. -/
theorem c1_oem_failure_aborts_run :
    generate_proposal (pyS "rfp.md") (.ok (some (pyS "rfp.md")) (pyS "Full RFP text."))
        (.ok (some (pyS "Summary")) (some [pyS "Req 1"]) none)
        (.ok (pyS "Understanding")) (.ok (pyS "Overview text")) (.ok (pyS "Arch text"))
        (.ok (pyS "graph TD;\n A --> B;")) false .notFound
        [pyS "testplatform"] (.raises (pyS "LLM API Error for OEM")) (pyS "TestPlatform") =
      .runError (pyS "OEM Review Generation")
        (pyS "Error generating OEM review for " ++ sqm ++ pyS "TestPlatform" ++ sqm ++
          pyS ": " ++ agentStr (oemWrapMsg (pyS "TestPlatform") (pyS "LLM API Error for OEM"))) := by
  decide
